import Mathlib

/-!
Shallow embedding of the db_lab2 query-construction layer
(`src/models/core.py`, `src/models/types/*.py`, `src/models/expressions/*.py`).

Python runtime values relevant to the column/type system are modelled by
`Value`; machine floats and `decimal.Decimal` are modelled as rationals,
`datetime.date` / `datetime.datetime` as explicit calendar fields.
Python exceptions become the `Err` sum; fallible code returns `Except Err`.
-/

/-- Python runtime values that can reach the column/type system. -/
inductive Value where
  | none
  | bool (b : Bool)
  | int (n : Int)
  | float (q : ℚ)
  | str (s : String)
  | decimal (q : ℚ)
  | date (y m d : Nat)
  | datetime (y m d hh mi ss : Nat) (frac : Nat) (tz : Option Int)
  | randexpr (sql : String)
deriving DecidableEq, Repr

/-- Python exception classes raised by the core (messages are modelled). -/
inductive Err where
  | valueError (msg : String)
  | typeError (msg : String)
  | attributeError (msg : String)
deriving DecidableEq, Repr

/-- Python `type(x)` restricted to the modelled universe. -/
inductive PyType where
  | noneT | boolT | intT | floatT | strT | decimalT | dateT | datetimeT | randT
deriving DecidableEq, Repr

def typeOf : Value → PyType
  | .none => .noneT
  | .bool _ => .boolT
  | .int _ => .intT
  | .float _ => .floatT
  | .str _ => .strT
  | .decimal _ => .decimalT
  | .date _ _ _ => .dateT
  | .datetime _ _ _ _ _ _ _ _ => .datetimeT
  | .randexpr _ => .randT

/-- Python truthiness `bool(x)` of a modelled value. -/
def pyTruthy : Value → Bool
  | .none => false
  | .bool b => b
  | .int n => n != 0
  | .float q => q != 0
  | .str s => s != ""
  | .decimal q => q != 0
  | .date _ _ _ => true
  | .datetime _ _ _ _ _ _ _ _ => true
  | .randexpr _ => true

/-- Python `isinstance(x, int)`: `bool` is a subclass of `int`. -/
def pyIsInt : Value → Bool
  | .bool _ => true
  | .int _ => true
  | _ => false

/-- Comparison `x < 0` as used on a value already known to satisfy `pyIsInt`. -/
def pyIntLtZero : Value → Bool
  | .int n => n < 0
  | _ => false

/-- Numeric content for Python cross-type `==` (bool, int, float, Decimal). -/
def toRatNum : Value → Option ℚ
  | .bool b => some (if b then 1 else 0)
  | .int n => some (n : ℚ)
  | .float q => some q
  | .decimal q => some q
  | _ => Option.none

/-- Model of Python `==` on the value universe: numeric values compare by
their numeric content (so `1 == True`), everything else structurally. -/
def pyEq (a b : Value) : Bool :=
  match toRatNum a, toRatNum b with
  | some x, some y => x == y
  | _, _ => a == b

def pad2 (n : Nat) : String := if n < 10 then "0" ++ toString n else toString n

def pad4 (n : Nat) : String :=
  if n < 10 then "000" ++ toString n
  else if n < 100 then "00" ++ toString n
  else if n < 1000 then "0" ++ toString n
  else toString n

/-- Simplified model of `repr(float)` / `str(Decimal)`: exact rationals are
printed with a decimal point, other rationals in fraction form. -/
def floatRepr (q : ℚ) : String :=
  if q.den = 1 then toString q.num ++ ".0" else toString q

/-- Model of Python `str(x)` for modelled values. -/
def pyStrOf : Value → String
  | .none => "None"
  | .bool b => if b then "True" else "False"
  | .int n => toString n
  | .float q => floatRepr q
  | .str s => s
  | .decimal q => floatRepr q
  | .date y m d => pad4 y ++ "-" ++ pad2 m ++ "-" ++ pad2 d
  | .datetime y m d hh mi ss frac tz =>
      pad4 y ++ "-" ++ pad2 m ++ "-" ++ pad2 d ++ " " ++
      pad2 hh ++ ":" ++ pad2 mi ++ ":" ++ pad2 ss ++
      (if frac = 0 then "" else "." ++ toString frac) ++
      (match tz with
       | Option.none => ""
       | some off => (if off ≥ 0 then "+" else "-") ++ toString off.natAbs)
  | .randexpr s => "RandExpr(value=" ++ s ++ ")"

/-- Characters stripped by Python `str.strip()`. -/
def isPySpace (c : Char) : Bool :=
  c = ' ' || c = '\t' || c = '\n' || c = '\r' || c = '\x0b' || c = '\x0c'

/-- Model of Python `str.strip()`. -/
def pyStrip (s : String) : String :=
  String.mk (((s.data.dropWhile isPySpace).reverse.dropWhile isPySpace).reverse)

def parseNatDigits (cs : List Char) : Option Nat :=
  if cs ≠ [] && cs.all Char.isDigit then
    some (cs.foldl (fun a c => a * 10 + (c.toNat - 48)) 0)
  else Option.none

/-- Model of Python `int(str)`: optional surrounding whitespace, optional
sign, decimal digits (digit-group underscores are not modelled). -/
def parseInt (s : String) : Option Int :=
  match (pyStrip s).data with
  | '+' :: rest => (parseNatDigits rest).map Int.ofNat
  | '-' :: rest => (parseNatDigits rest).map (fun n => -(n : Int))
  | cs => (parseNatDigits cs).map Int.ofNat

def parseExpPart : List Char → Option Int
  | '+' :: rest => (parseNatDigits rest).map Int.ofNat
  | '-' :: rest => (parseNatDigits rest).map (fun n => -(n : Int))
  | cs => (parseNatDigits cs).map Int.ofNat

def parseMantissa (cs : List Char) : Option ℚ :=
  let intPart := cs.takeWhile (fun c => c ≠ '.')
  match cs.dropWhile (fun c => c ≠ '.') with
  | [] => (parseNatDigits intPart).map (fun n => (n : ℚ))
  | '.' :: fracPart =>
    if intPart = [] ∧ fracPart = [] then Option.none
    else
      let ip : Option Nat := if intPart = [] then some 0 else parseNatDigits intPart
      let fp : Option Nat := if fracPart = [] then some 0 else parseNatDigits fracPart
      match ip, fp with
      | some i, some f => some ((i : ℚ) + (f : ℚ) / ((10 : ℚ) ^ fracPart.length))
      | _, _ => Option.none
  | _ => Option.none

/-- Model of Python `float(str)` (and the numeric-literal part of
`Decimal(str)`): sign, mantissa, optional exponent; `inf` and `nan`
are not modelled. -/
def parseFloat (s : String) : Option ℚ :=
  let core := fun (cs : List Char) =>
    let mantPart := cs.takeWhile (fun c => c ≠ 'e' ∧ c ≠ 'E')
    match cs.dropWhile (fun c => c ≠ 'e' ∧ c ≠ 'E') with
    | [] => parseMantissa mantPart
    | _ :: expPart =>
      match parseMantissa mantPart, parseExpPart expPart with
      | some m, some e => some (m * (10 : ℚ) ^ e)
      | _, _ => Option.none
  match (pyStrip s).data with
  | '+' :: rest => core rest
  | '-' :: rest => (core rest).map Neg.neg
  | cs => core cs

def isLeap (y : Nat) : Bool := y % 4 = 0 && (y % 100 ≠ 0 || y % 400 = 0)

def daysInMonth (y m : Nat) : Nat :=
  if m = 2 then (if isLeap y then 29 else 28)
  else if m = 4 ∨ m = 6 ∨ m = 9 ∨ m = 11 then 30
  else 31

/-- Model of `datetime.date.fromisoformat`: exactly `YYYY-MM-DD`. -/
def parseIsoDate (s : String) : Option (Nat × Nat × Nat) :=
  match s.data with
  | [a, b, c, d, '-', e, f, '-', g, h] => do
    let y ← parseNatDigits [a, b, c, d]
    let mo ← parseNatDigits [e, f]
    let da ← parseNatDigits [g, h]
    if 1 ≤ y ∧ 1 ≤ mo ∧ mo ≤ 12 ∧ 1 ≤ da ∧ da ≤ daysInMonth y mo then some (y, mo, da)
    else Option.none
  | _ => Option.none

/-- Parsed datetime components: year, month, day, hour, minute, second,
fractional part, timezone offset in minutes. -/
abbrev DT := Nat × Nat × Nat × Nat × Nat × Nat × Nat × Option Int

/-- ISO timezone suffix `+HH:MM` / `-HH:MM` (empty means naive). -/
def parseTzIso : List Char → Option (Option Int)
  | [] => some Option.none
  | sign :: rest =>
    if sign = '+' ∨ sign = '-' then
      match rest with
      | [h1, h2, ':', m1, m2] => do
        let hh ← parseNatDigits [h1, h2]
        let mm ← parseNatDigits [m1, m2]
        let tot : Int := hh * 60 + mm
        some (some (if sign = '-' then -tot else tot))
      | _ => Option.none
    else Option.none

/-- Time-of-day part `HH[:MM[:SS[.ffffff]]]` of an ISO datetime. -/
def parseHMSF (cs : List Char) : Option (Nat × Nat × Nat × Nat) :=
  match cs with
  | [h1, h2] => do
    let hh ← parseNatDigits [h1, h2]
    if hh ≤ 23 then some (hh, 0, 0, 0) else Option.none
  | [h1, h2, ':', m1, m2] => do
    let hh ← parseNatDigits [h1, h2]
    let mi ← parseNatDigits [m1, m2]
    if hh ≤ 23 ∧ mi ≤ 59 then some (hh, mi, 0, 0) else Option.none
  | [h1, h2, ':', m1, m2, ':', s1, s2] => do
    let hh ← parseNatDigits [h1, h2]
    let mi ← parseNatDigits [m1, m2]
    let ss ← parseNatDigits [s1, s2]
    if hh ≤ 23 ∧ mi ≤ 59 ∧ ss ≤ 59 then some (hh, mi, ss, 0) else Option.none
  | h1 :: h2 :: ':' :: m1 :: m2 :: ':' :: s1 :: s2 :: '.' :: frac => do
    let hh ← parseNatDigits [h1, h2]
    let mi ← parseNatDigits [m1, m2]
    let ss ← parseNatDigits [s1, s2]
    let fr ← parseNatDigits frac
    if (hh ≤ 23 ∧ mi ≤ 59 ∧ ss ≤ 59) ∧ (frac.length = 3 ∨ frac.length = 6) then
      some (hh, mi, ss, fr)
    else Option.none
  | _ => Option.none

/-- Model of `datetime.datetime.fromisoformat` (pre-3.11 grammar): a date,
optionally followed by one separator character, a time and a `+HH:MM`
timezone offset. -/
def parseIsoDatetime (s : String) : Option DT :=
  let cs := s.data
  match cs.drop 10 with
  | [] => (parseIsoDate (String.mk cs)).map (fun p => (p.1, p.2.1, p.2.2, 0, 0, 0, 0, Option.none))
  | _ :: rest => do
    let (y, mo, da) ← parseIsoDate (String.mk (cs.take 10))
    let timeCs := rest.takeWhile (fun c => c ≠ '+' ∧ c ≠ '-')
    let tzCs := rest.dropWhile (fun c => c ≠ '+' ∧ c ≠ '-')
    let (hh, mi, ss, fr) ← parseHMSF timeCs
    let tz ← parseTzIso tzCs
    some (y, mo, da, hh, mi, ss, fr, tz)

/-- strptime directive `%z`: `±HHMM`, `±HH:MM` or `Z`. -/
def parseTzStrp : List Char → Option Int
  | ['Z'] => some 0
  | sign :: rest =>
    if sign = '+' ∨ sign = '-' then
      match rest with
      | [h1, h2, m1, m2] => do
        let hh ← parseNatDigits [h1, h2]
        let mm ← parseNatDigits [m1, m2]
        let tot : Int := hh * 60 + mm
        some (if sign = '-' then -tot else tot)
      | [h1, h2, ':', m1, m2] => do
        let hh ← parseNatDigits [h1, h2]
        let mm ← parseNatDigits [m1, m2]
        let tot : Int := hh * 60 + mm
        some (if sign = '-' then -tot else tot)
      | _ => Option.none
    else Option.none
  | _ => Option.none

def checkDateTimeFields (y mo da hh mi ss : Nat) : Bool :=
  1 ≤ y && 1 ≤ mo && mo ≤ 12 && 1 ≤ da && da ≤ daysInMonth y mo &&
  hh ≤ 23 && mi ≤ 59 && ss ≤ 59

/-- Model of `datetime.strptime(s, "%Y-%m-%d %H:%M:%S.%f%z")`. -/
def strptimeFracTz (s : String) : Option DT :=
  match s.data with
  | a :: b :: c :: d :: '-' :: e :: f :: '-' :: g :: h :: ' ' ::
    h1 :: h2 :: ':' :: m1 :: m2 :: ':' :: s1 :: s2 :: '.' :: rest => do
    let fracCs := rest.takeWhile Char.isDigit
    let tzCs := rest.dropWhile Char.isDigit
    if 1 ≤ fracCs.length ∧ fracCs.length ≤ 6 then do
      let y ← parseNatDigits [a, b, c, d]
      let mo ← parseNatDigits [e, f]
      let da ← parseNatDigits [g, h]
      let hh ← parseNatDigits [h1, h2]
      let mi ← parseNatDigits [m1, m2]
      let ss ← parseNatDigits [s1, s2]
      let fr ← parseNatDigits fracCs
      let tz ← parseTzStrp tzCs
      if checkDateTimeFields y mo da hh mi ss then some (y, mo, da, hh, mi, ss, fr, some tz)
      else Option.none
    else Option.none
  | _ => Option.none

/-- Model of `datetime.strptime(s, "%Y-%m-%d %H:%M:%S%z")`. -/
def strptimeTz (s : String) : Option DT :=
  match s.data with
  | a :: b :: c :: d :: '-' :: e :: f :: '-' :: g :: h :: ' ' ::
    h1 :: h2 :: ':' :: m1 :: m2 :: ':' :: s1 :: s2 :: rest => do
    let y ← parseNatDigits [a, b, c, d]
    let mo ← parseNatDigits [e, f]
    let da ← parseNatDigits [g, h]
    let hh ← parseNatDigits [h1, h2]
    let mi ← parseNatDigits [m1, m2]
    let ss ← parseNatDigits [s1, s2]
    let tz ← parseTzStrp rest
    if checkDateTimeFields y mo da hh mi ss then some (y, mo, da, hh, mi, ss, 0, some tz)
    else Option.none
  | _ => Option.none

def mkDatetime (p : DT) : Value :=
  .datetime p.1 p.2.1 p.2.2.1 p.2.2.2.1 p.2.2.2.2.1 p.2.2.2.2.2.1 p.2.2.2.2.2.2.1 p.2.2.2.2.2.2.2

/-- Concrete column types of the type system (`src/models/types`). The
parametrized variants carry their factory parameters. -/
inductive ColType where
  | boolean
  | integer
  | smallint
  | serial
  | smallserial
  | numeric (precision scale : Nat)
  | date
  | timestamptz
  | varchar (length : Option Nat)
deriving DecidableEq, Repr

/-- PostgreSQL type name (`type` class attribute). -/
def typeName : ColType → String
  | .boolean => "BOOLEAN"
  | .integer => "INTEGER"
  | .smallint => "SMALLINT"
  | .serial => "SERIAL"
  | .smallserial => "SMALLSERIAL"
  | .numeric p s => "NUMERIC(" ++ toString p ++ ", " ++ toString s ++ ")"
  | .date => "DATE"
  | .timestamptz => "TIMESTAMP WITH TIME ZONE"
  | .varchar Option.none => "VARCHAR"
  | .varchar (some n) => "VARCHAR(" ++ toString n ++ ")"

/-- Applying one target type `_type(value)` inside `Column.convert`:
the builtin constructors `bool`, `int`, `float`, `Decimal`, `str`;
one-argument `date(value)` / `datetime(value)` always raise. -/
def convertTo (t : PyType) (v : Value) : Except Err Value :=
  match t with
  | .boolT => .ok (.bool (pyTruthy v))
  | .intT =>
    match v with
    | .bool b => .ok (.int (if b then 1 else 0))
    | .int n => .ok (.int n)
    | .float q => .ok (.int (if q ≥ 0 then q.floor else q.ceil))
    | .decimal q => .ok (.int (if q ≥ 0 then q.floor else q.ceil))
    | .str s =>
      match parseInt s with
      | some n => .ok (.int n)
      | Option.none => .error (.valueError "invalid literal for int")
    | _ => .error (.typeError "int argument must be a string or a number")
  | .floatT =>
    match v with
    | .bool b => .ok (.float (if b then 1 else 0))
    | .int n => .ok (.float (n : ℚ))
    | .float q => .ok (.float q)
    | .decimal q => .ok (.float q)
    | .str s =>
      match parseFloat s with
      | some q => .ok (.float q)
      | Option.none => .error (.valueError "could not convert string to float")
    | _ => .error (.typeError "float argument must be a string or a number")
  | .decimalT =>
    match v with
    | .bool b => .ok (.decimal (if b then 1 else 0))
    | .int n => .ok (.decimal (n : ℚ))
    | .float q => .ok (.decimal q)
    | .decimal q => .ok (.decimal q)
    | .str s =>
      match parseFloat s with
      | some q => .ok (.decimal q)
      | Option.none => .error (.valueError "invalid operation constructing Decimal")
    | _ => .error (.typeError "conversion to Decimal is not supported")
  | .strT => .ok (.str (pyStrOf v))
  | _ => .error (.typeError "constructor takes no single argument")

/-- Try each compatible type in order, first success wins
(the `for _type in cls._TYPES` loop of `Column.convert`; the Python set
is modelled in the literal order of the source). -/
def tryConvertList (ts : List PyType) (v : Value) : Except Err Value :=
  match ts with
  | [] => .error (.typeError "Could not convert value to be compatible with column type")
  | t :: rest =>
    match convertTo t v with
    | .ok w => .ok w
    | .error _ => tryConvertList rest v

/-- Base `Column.convert`: a value whose exact type is `RandExpr` or one of
the compatible types is returned unchanged, otherwise each compatible type
is tried as a converter. -/
def baseConvert (ts : List PyType) (v : Value) : Except Err Value :=
  if typeOf v ∈ PyType.randT :: ts then .ok v
  else tryConvertList ts v

/-- Model of Python `str.lower()` (ASCII case folding). -/
def pyLower (s : String) : String := String.mk (s.data.map Char.toLower)

/-- `Boolean.convert`: a string is false exactly when it lower-cases into
the tuple of the source (`"0"`, `"f"`, `"false"`, `"FALSE"` — the fourth
entry is unreachable, a lowered string is never upper-case); any other
value uses the base method with `_TYPES = {bool, int}`. -/
def booleanConvert (v : Value) : Except Err Value :=
  match v with
  | .str s => .ok (.bool (!(pyLower s ∈ ["0", "f", "false", "FALSE"])))
  | _ => baseConvert [.boolT, .intT] v

/-- `Date.convert`: base method with `_TYPES = {date}` first, then
`date.fromisoformat` for strings; non-strings fail with a type error. -/
def dateConvert (v : Value) : Except Err Value :=
  match baseConvert [.dateT] v with
  | .ok w => .ok w
  | .error _ =>
    match v with
    | .str s =>
      match parseIsoDate s with
      | some (y, mo, da) => .ok (.date y mo da)
      | Option.none => .error (.typeError "Invalid format for DATE")
    | _ => .error (.typeError "fromisoformat argument must be str")

/-- `TimeStampTZ.convert`: base method with `_TYPES = {datetime}` first,
then `datetime.fromisoformat`, then the two `strptime` fall-backs on the
input with `"00"` appended; non-strings fail with a type error. -/
def timestampConvert (v : Value) : Except Err Value :=
  match baseConvert [.datetimeT] v with
  | .ok w => .ok w
  | .error _ =>
    match v with
    | .str s =>
      match parseIsoDatetime s with
      | some p => .ok (mkDatetime p)
      | Option.none =>
        match strptimeFracTz (s ++ "00") with
        | some p => .ok (mkDatetime p)
        | Option.none =>
          match strptimeTz (s ++ "00") with
          | some p => .ok (mkDatetime p)
          | Option.none => .error (.typeError "Invalid format for TIMESTAMP WITH TIME ZONE")
    | _ => .error (.typeError "fromisoformat argument must be str")

/-- Dispatch of `convert` over the concrete column types. The integer
family has `_TYPES = {int}`, `Numeric` has `{int, float, Decimal}` and
`VarChar` has `{str}`. -/
def convert : ColType → Value → Except Err Value
  | .boolean, v => booleanConvert v
  | .integer, v => baseConvert [.intT] v
  | .smallint, v => baseConvert [.intT] v
  | .serial, v => baseConvert [.intT] v
  | .smallserial, v => baseConvert [.intT] v
  | .numeric _ _, v => baseConvert [.intT, .floatT, .decimalT] v
  | .date, v => dateConvert v
  | .timestamptz, v => timestampConvert v
  | .varchar _, v => baseConvert [.strT] v

/-- Identity of a table class: `__schema__` and `__table__`. Distinct table
classes of a program carry distinct identities, so Python class identity is
modelled by equality of `TableId`. -/
structure TableId where
  schema : String
  tname : String
deriving DecidableEq, Repr

/-- A column descriptor. The owning table is recorded at creation (the
source sets it through the descriptor protocol when the column is first
read from its class). -/
structure Col where
  name : String
  table : TableId
  ctype : ColType
  primary_key : Bool
  unique : Bool
  not_null : Bool
deriving DecidableEq, Repr

/-- A table class: identity plus its ordered column descriptors
(`MetaModel.columns`). -/
structure Table where
  id : TableId
  cols : List Col
deriving DecidableEq, Repr

/-- `str(column)`: `"<table>"."<name>"`. -/
def colStr (c : Col) : String :=
  "\"" ++ c.table.tname ++ "\".\"" ++ c.name ++ "\""

/-- `str(table class)`: `"<schema>"."<table>"`. -/
def tableStr (t : Table) : String :=
  "\"" ++ t.id.schema ++ "\".\"" ++ t.id.tname ++ "\""

/-- The name check of `Column.__init__`: `re.match` anchors at the start of
the string only, and the pattern `[A-Za-z0-9_]` is a single character
class, so only the first character is examined. -/
def reMatchNameStart (s : String) : Bool :=
  match s.data with
  | [] => false
  | c :: _ => c.isAlphanum || c = '_'

/-- Model of `Column.__init__`: name check, then the primary-key forcing of
`unique` and `not_null`. -/
def mkColumn (name : String) (table : TableId) (ctype : ColType)
    (primary_key : Bool := false) (unique : Bool := false) (not_null : Bool := false) :
    Except Err Col :=
  if reMatchNameStart name then
    .ok { name := name, table := table, ctype := ctype,
          primary_key := primary_key,
          unique := unique || primary_key,
          not_null := not_null || primary_key }
  else .error (.valueError ("Invalid column name " ++ name))

/-- Base `Column.validate`: NOT NULL guard, then `convert` with conversion
failures re-raised as a `TypeError`. -/
def columnValidate (ct : ColType) (notNull : Bool) (v : Value) : Except Err Unit :=
  if notNull && v == Value.none then
    .error (.valueError "Invalid value - NOT NULL constraint violation")
  else
    match convert ct v with
    | .ok _ => .ok ()
    | .error _ => .error (.typeError ("Invalid value for type " ++ typeName ct ++ " provided"))

/-- The `_MIN` / `_MAX` bounds baked into each numeric type. `Serial` takes
`_MIN = 0` from `_Serial` and `_MAX` from `Integer` by method resolution
order; `Numeric` gets `±10^precision` from its type factory. -/
def minMax : ColType → Option (Int × Int)
  | .integer => some (-(2 ^ 31), 2 ^ 31 - 1)
  | .smallint => some (-(2 ^ 15), 2 ^ 15 - 1)
  | .serial => some (0, 2 ^ 31 - 1)
  | .smallserial => some (0, 2 ^ 15 - 1)
  | .numeric p _ => some (-(10 ^ p : Int), (10 ^ p : Int))
  | _ => Option.none

/-- `_Numeric.validate`: the base validation, then the range check
`_MIN <= self.convert(value) <= _MAX`. Comparing the bounds against a
non-numeric converted value (a `RandExpr`) raises a `TypeError` in Python;
the impossible missing-bounds case is mapped to success. -/
def numericValidate (ct : ColType) (notNull : Bool) (v : Value) : Except Err Unit := do
  columnValidate ct notNull v
  match minMax ct, convert ct v with
  | some (lo, hi), .ok w =>
    match toRatNum w with
    | some q =>
      if (lo : ℚ) ≤ q ∧ q ≤ (hi : ℚ) then .ok ()
      else .error (.valueError ("Invalid value for type " ++ typeName ct ++
        " - must be in range of " ++ toString lo ++ " - " ++ toString hi))
    | Option.none => .error (.typeError "unsupported operand types for comparison")
  | _, _ => .ok ()

/-- Validation dispatched on the concrete column class: the integer family
and `Numeric` use `_Numeric.validate`, the rest the base `Column.validate`. -/
def colValidate (c : Col) (v : Value) : Except Err Unit :=
  match c.ctype with
  | .integer | .smallint | .serial | .smallserial | .numeric _ _ =>
      numericValidate c.ctype c.not_null v
  | _ => columnValidate c.ctype c.not_null v

/-- A Python dict of bound parameters, as an ordered association list with
unique keys (insertion order preserved, as in CPython dicts). -/
abbrev Params := List (String × Value)

/-- Python `d[k] = v`: overwrite in place if the key exists (keys are
unique, so replacing the first occurrence is replacing the only one), else
append at the end. -/
def dictSet (d : Params) (k : String) (v : Value) : Params :=
  match d with
  | [] => [(k, v)]
  | p :: rest => if p.1 = k then (k, v) :: rest else p :: dictSet rest k v

/-- Python `d.update(other)`: set every entry of `other` in order. -/
def dictUpdate (d other : Params) : Params :=
  other.foldl (fun acc p => dictSet acc p.1 p.2) d

/-- An Expression: SQL fragment plus an optional parameter map
(`src/models/expressions/logical.py`). -/
abbrev WhereExpr := String × Option Params

/-- The logical-combinator factory `_logical_expr_factory`: all fragments
joined by the operator inside one pair of parentheses, all parameter maps
merged in order. -/
def logicalExpr (operator : String) (expressions : List WhereExpr) : String × Params :=
  let operands := expressions.map Prod.fst
  let parameters := expressions.foldl (fun ps e => dictUpdate ps (e.2.getD [])) []
  ("(" ++ String.intercalate (" " ++ operator ++ " ") operands ++ ")", parameters)

def and_ (expressions : List WhereExpr) : String × Params := logicalExpr "AND" expressions

def or_ (expressions : List WhereExpr) : String × Params := logicalExpr "OR" expressions

/-- Where a name collides, the value of the last expression carrying it
wins: later expressions take priority, and inside one parameter list the
last entry for the name does. -/
def lastWins (k : String) : List WhereExpr → Option Value
  | [] => Option.none
  | e :: rest =>
    match lastWins k rest with
    | some v => some v
    | Option.none => ((e.2.getD []).reverse).lookup k

/-- The deferred closure produced by `JoinFactory.__call__`. The owning
tables of the two columns (`first.table`, `second.table` in the source) are
passed explicitly as `firstT` and `secondT`; class membership in the
running table list is decided by `TableId` equality. -/
def joinClause (keyword : String) (first second : Col) (firstT secondT : Table)
    (joined : List Table) : Except Err (String × Table) :=
  if first.table ∈ joined.map Table.id then
    .ok (keyword ++ " " ++ tableStr secondT ++ "\n\tON " ++
         colStr first ++ " = " ++ colStr second, secondT)
  else if second.table ∈ joined.map Table.id then
    .ok (keyword ++ " " ++ tableStr firstT ++ "\n\tON " ++
         colStr first ++ " = " ++ colStr second, firstT)
  else .error (.valueError "Cannot join - unknown tables provided")

/-- The state of a `_FilterQuery` at render time (`src/models/core.py`).
`limit` and `offset` hold arbitrary Python values, as the attributes do;
the unset default is `None`. Joins are the deferred closures. -/
structure FilterQuery where
  parameters : Params := []
  tables : List Table := []
  joins : List (List Table → Except Err (String × Table)) := []
  filters : List WhereExpr := []
  order_by : Option Col := Option.none
  ascending : Bool := true
  limit : Value := Value.none
  offset : Value := Value.none

/-- The join loop of `_FilterQuery._render`: each join sees the running
table list, its fragment is appended to the text and its table to the list. -/
def runJoins (joins : List (List Table → Except Err (String × Table)))
    (tables : List Table) (query : String) : Except Err (String × List Table) :=
  match joins with
  | [] => .ok (query, tables)
  | j :: rest => do
    let (expression, table) ← j tables
    runJoins rest (tables ++ [table]) (query ++ "\n" ++ expression ++ " ")

/-- The WHERE section of `_FilterQuery._render`: fragments joined by AND,
parameter maps merged into the query parameters in order. -/
def runFilters (filters : List WhereExpr) (params : Params) : String × Params :=
  if filters.isEmpty then ("", params)
  else
    ("\nWHERE\n\t" ++ String.intercalate "\n\tAND\n\t" (filters.map Prod.fst),
     filters.foldl (fun ps f => match f.2 with | some p => dictUpdate ps p | Option.none => ps) params)

/-- The ORDER BY section of `_FilterQuery._render`. The source line is
`query += f"\nORDER BY {self.order_by} " + "ASC" if self.ascending else "DESC" + " "`,
which Python parses as the conditional expression
`(f"\nORDER BY {col} " + "ASC") if self.ascending else ("DESC" + " ")`:
the descending branch appends only `"DESC "`. -/
def renderOrderBy (order_by : Option Col) (ascending : Bool) (tables : List Table) :
    Except Err String :=
  match order_by with
  | Option.none => .ok ""
  | some col =>
    if col.table ∈ tables.map Table.id then
      .ok (if ascending then "\nORDER BY " ++ colStr col ++ " ASC" else "DESC ")
    else .error (.valueError "Cannot order by unknown column")

/-- The LIMIT / OFFSET sections of `_FilterQuery._render`: a falsy value is
skipped entirely; a truthy one must be a non-negative `int`. -/
def renderLimitClause (clauseKw label : String) (v : Value) : Except Err String :=
  if pyTruthy v then
    if !pyIsInt v || pyIntLtZero v then
      .error (.valueError ("Query " ++ label ++ " must be non-negative integer value"))
    else .ok ("\n" ++ clauseKw ++ " " ++ pyStrOf v ++ " ")
  else .ok ""

/-- `_FilterQuery._render`: joins, WHERE, ORDER BY, LIMIT, OFFSET in fixed
order, the final text stripped; the mutated table list and parameter map
are returned alongside. -/
def filterRender (q : FilterQuery) : Except Err (String × List Table × Params) := do
  let (joinText, tables) ← runJoins q.joins q.tables ""
  let (whereText, params) := runFilters q.filters q.parameters
  let orderText ← renderOrderBy q.order_by q.ascending tables
  let limitText ← renderLimitClause "LIMIT" "limit" q.limit
  let offsetText ← renderLimitClause "OFFSET" "offset" q.offset
  .ok (pyStrip (joinText ++ whereText ++ orderText ++ limitText ++ offsetText), tables, params)

/-- A `SelectQuery`: the filter query state plus explicitly selected
columns. -/
structure SelectQuery extends FilterQuery where
  columns : List Col := []

/-- The `FROM {self.table}` text: `str(None)` when no table is referenced. -/
def fromTableStr : List Table → String
  | [] => "None"
  | t :: _ => tableStr t

/-- `SelectQuery._render`: `self.columns or self.table.columns` (an
attribute error on a missing primary table when no explicit columns are
given), then the SELECT head followed by the filter sections. -/
def selectRender (q : SelectQuery) : Except Err (String × List Table × Params) := do
  let cols ← match q.columns with
    | [] =>
      match q.tables with
      | [] => Except.error (Err.attributeError "NoneType object has no attribute columns")
      | t :: _ => Except.ok t.cols
    | cs => Except.ok cs
  let selected := String.intercalate ",\n\t" (cols.map colStr)
  if selected = "" then
    .ok ("", q.tables, q.parameters)
  else do
    let head := "SELECT\n\t" ++ selected ++ "\nFROM " ++ fromTableStr q.tables ++ "\n"
    let (tail, tables, params) ← filterRender q.toFilterQuery
    .ok (pyStrip (head ++ tail), tables, params)

/-- A model instance passed to an insert: the identity of its class, its
class columns, and the per-column stored values (`getattr(value, name)`
returns the stored, already converted value; absent names give the default
`None`). -/
structure Instance where
  itable : TableId
  icols : List Col
  ivals : List (String × Value)
deriving DecidableEq, Repr

def instGet (inst : Instance) (name : String) : Value :=
  (inst.ivals.lookup name).getD Value.none

/-- One `(row, column)` cell of `_ValuesQuery._render`: the column must
exist on the instance; a `RandExpr` value is spliced raw, any other value
is bound under `<table>_<column>_<rowIndex>` (the validation call in the
source is commented out, so no validation happens here). -/
def renderPiece (number : Nat) (c : Col) (inst : Instance) (params : Params) :
    Except Err (String × Params) :=
  if c.name ∈ inst.icols.map (fun x => x.name) then
    match instGet inst c.name with
    | .randexpr sql => .ok (sql, params)
    | v =>
      let pname := c.table.tname ++ "_" ++ c.name ++ "_" ++ toString number
      .ok ("%(" ++ pname ++ ")s", dictSet params pname v)
  else .error (.valueError ("Column " ++ c.name ++ " not found in instance"))

def renderPieces (number : Nat) (cols : List Col) (inst : Instance) (params : Params) :
    Except Err (List String × Params) :=
  match cols with
  | [] => .ok ([], params)
  | c :: rest => do
    let (piece, params1) ← renderPiece number c inst params
    let (pieces, params2) ← renderPieces number rest inst params1
    .ok (piece :: pieces, params2)

/-- The row loop of `_ValuesQuery._render`: each instance must be of the
inserted table class, its cells are rendered in the declared column order. -/
def renderRows (inserted : Table) (number : Nat) (vals : List Instance) (params : Params) :
    Except Err (List String × Params) :=
  match vals with
  | [] => .ok ([], params)
  | inst :: rest =>
    if inst.itable = inserted.id then do
      let (pieces, params1) ← renderPieces number inserted.cols inst params
      let row := "\n\t(" ++ String.intercalate ", " pieces ++ ")"
      let (rows, params2) ← renderRows inserted (number + 1) rest params1
      .ok (row :: rows, params2)
    else .error (.typeError ("Incompatible inserted table - " ++ inst.itable.tname))

/-- The state of a `_ValuesQuery`. -/
structure ValuesQuery where
  parameters : Params := []
  tables : List Table := []
  values : List Instance := []

/-- `_ValuesQuery._render`: unpacking `inserted, *redundant = self.tables`
raises on an empty table list; more than one table is rejected; with
columns and values present, one VALUES tuple is rendered per instance. -/
def valuesRender (q : ValuesQuery) : Except Err (String × Params) :=
  match q.tables with
  | [] => .error (.valueError "not enough values to unpack")
  | inserted :: redundant =>
    if redundant ≠ [] then .error (.valueError "INSERT can be performed only for single table")
    else if inserted.cols ≠ [] && q.values ≠ [] then
      match renderRows inserted 0 q.values q.parameters with
      | .ok (rows, params) => .ok ("\nVALUES" ++ String.intercalate "," rows, params)
      | .error e => .error e
    else .ok ("", q.parameters)

/-- An `InsertQuery`. -/
structure InsertQuery extends ValuesQuery where
  upsert : Bool := false

/-- `InsertQuery._render`: the VALUES body wrapped with the INSERT head,
the upsert SET clause when requested, the DO NOTHING conflict clause and
the RETURNING tail; empty body renders empty. -/
def insertRender (q : InsertQuery) : Except Err (String × Params) := do
  let (body, params) ← valuesRender q.toValuesQuery
  match q.tables with
  | [] => .ok (pyStrip body, params)
  | inserted :: _ =>
    if body ≠ "" then
      let colNames := String.intercalate ", " (inserted.cols.map (fun c => c.name))
      let pkNames := String.intercalate ", "
        ((inserted.cols.filter (fun c => c.primary_key)).map (fun c => c.name))
      let head := "INSERT INTO " ++ tableStr inserted ++ "\n\t(" ++ colNames ++ ") "
      let upsertText :=
        if q.upsert then
          "\nON CONFLICT\n\t(" ++ pkNames ++ ")\nDO UPDATE " ++ tableStr inserted ++
          "\nSET\n\t" ++ String.intercalate "\n\t"
            (inserted.cols.map (fun c => "\"" ++ c.name ++ "\" = " ++ colStr c))
        else ""
      let tail := "\nON CONFLICT (" ++ pkNames ++ ") DO NOTHING" ++
        "\nRETURNING\n\t(" ++ colNames ++ ")"
      .ok (pyStrip (head ++ body ++ upsertText ++ tail), params)
    else .ok (pyStrip body, params)

/-- An `UpdateQuery`: the filter query state plus the map of changed
columns (an ordered dict in the source). -/
structure UpdateQuery extends FilterQuery where
  values : List (String × Value) := []

/-- The SET loop of `UpdateQuery._render`: each changed column is looked up
on the primary table, its value validated, then bound under
`<table>_<column>`. -/
def updateSetClause (tbl : Table) (vals : List (String × Value)) (params : Params) :
    Except Err (String × Params) :=
  match vals with
  | [] => .ok ("", params)
  | (uname, v) :: rest =>
    match tbl.cols.find? (fun c => c.name = uname) with
    | Option.none =>
      .error (.valueError ("Column " ++ uname ++ " not found in table " ++ tbl.id.tname))
    | some c => do
      colValidate c v
      let pname := c.table.tname ++ "_" ++ c.name
      let piece := "\n\t" ++ c.name ++ " = %(" ++ pname ++ ")s,"
      let (restText, params2) ← updateSetClause tbl rest (dictSet params pname v)
      .ok (piece ++ restText, params2)

/-- `UpdateQuery._render`: empty value map renders empty; otherwise the
UPDATE head and SET clause (iterating the primary table columns raises an
attribute error when no table is referenced), the trailing comma dropped,
the filter sections, and `RETURNING <last updated column>`. -/
def updateRender (q : UpdateQuery) : Except Err (String × List Table × Params) :=
  if q.values = [] then .ok ("", q.tables, q.parameters)
  else
    match q.tables with
    | [] => .error (.attributeError "NoneType object has no attribute columns")
    | tbl :: _ => do
      let (setText, params) ← updateSetClause tbl q.values q.parameters
      let head := ("UPDATE " ++ tableStr tbl ++ "\nSET" ++ setText).dropRight 1 ++ "\n"
      let (tail, tables, params2) ← filterRender { q.toFilterQuery with parameters := params }
      let lastName := ((q.values.map Prod.fst).getLastD "")
      .ok (head ++ tail ++ "\nRETURNING " ++ lastName, tables, params2)

/-- `DeleteQuery._render`: with no referenced table the query is the empty
string and the filter sections are never rendered; otherwise the DELETE
head, the filter sections and `RETURNING *`. -/
def deleteRender (q : FilterQuery) : Except Err (String × List Table × Params) :=
  match q.tables with
  | [] => .ok ("", q.tables, q.parameters)
  | t :: _ => do
    let (tail, tables, params) ← filterRender q
    .ok ("DELETE FROM " ++ tableStr t ++ "\n" ++ tail ++ "\nRETURNING *", tables, params)

def strStartsWith : List Char → List Char → Bool
  | _, [] => true
  | [], _ :: _ => false
  | h :: hs, n :: ns => h = n && strStartsWith hs ns

def strContainsAux (hay needle : List Char) : Bool :=
  match hay with
  | [] => strStartsWith [] needle
  | _ :: rest => strStartsWith hay needle || strContainsAux rest needle

/-- Substring test used to state clause-presence properties. -/
def containsStr (hay needle : String) : Bool :=
  strContainsAux hay.data needle.data

theorem convertTo_typeOf {t : PyType} {v w : Value} (h : convertTo t v = .ok w) :
    typeOf w = t := by
  cases t <;> cases v <;>
    simp only [convertTo] at h <;>
    (try split at h) <;>
    (try simp at h) <;>
    (try subst h) <;>
    rfl

theorem tryConvertList_ok {ts : List PyType} {v w : Value}
    (h : tryConvertList ts v = .ok w) : ∃ t ∈ ts, convertTo t v = .ok w := by
  induction ts with
  | nil => simp [tryConvertList] at h
  | cons t rest ih =>
    rw [tryConvertList] at h
    cases hc : convertTo t v with
    | ok x =>
      rw [hc] at h
      simp only [Except.ok.injEq] at h
      exact ⟨t, by simp, by rw [hc, h]⟩
    | error e =>
      rw [hc] at h
      obtain ⟨u, hu, hcu⟩ := ih h
      exact ⟨u, by simp [hu], hcu⟩

theorem baseConvert_ok_typeOf {ts : List PyType} {v w : Value}
    (h : baseConvert ts v = .ok w) : typeOf w ∈ PyType.randT :: ts := by
  unfold baseConvert at h
  split at h
  · cases h; assumption
  · obtain ⟨t, ht, hc⟩ := tryConvertList_ok h
    rw [convertTo_typeOf hc]
    exact List.mem_cons_of_mem _ ht

theorem baseConvert_fix {ts : List PyType} {w : Value}
    (h : typeOf w ∈ PyType.randT :: ts) : baseConvert ts w = .ok w := by
  unfold baseConvert
  rw [if_pos h]

theorem booleanConvert_idem {v w : Value} (h : booleanConvert v = Except.ok w) :
    booleanConvert w = Except.ok w := by
  have key : typeOf w ∈ [PyType.randT, PyType.boolT, PyType.intT] := by
    cases v
    case str s =>
      simp only [booleanConvert, Except.ok.injEq] at h
      subst h
      simp [typeOf]
    all_goals exact baseConvert_ok_typeOf h
  cases w with
  | bool b => exact baseConvert_fix (by simp [typeOf])
  | int n => exact baseConvert_fix (by simp [typeOf])
  | randexpr s => exact baseConvert_fix (by simp [typeOf])
  | none => simp [typeOf] at key
  | float q => simp [typeOf] at key
  | str s => simp [typeOf] at key
  | decimal q => simp [typeOf] at key
  | date y m d => simp [typeOf] at key
  | datetime y m d hh mi ss fr tz => simp [typeOf] at key

theorem dateConvert_idem {v w : Value} (h : dateConvert v = Except.ok w) :
    dateConvert w = Except.ok w := by
  have key : typeOf w ∈ [PyType.randT, PyType.dateT] := by
    unfold dateConvert at h
    cases hb : baseConvert [PyType.dateT] v with
    | ok x =>
      rw [hb] at h
      simp only [Except.ok.injEq] at h
      subst h
      exact baseConvert_ok_typeOf hb
    | error e =>
      rw [hb] at h
      cases v <;> simp only at h <;> try exact absurd h (by simp)
      case str s =>
        cases hp : parseIsoDate s with
        | some p =>
          obtain ⟨y, mo, da⟩ := p
          rw [hp] at h
          simp only [Except.ok.injEq] at h
          subst h
          simp [typeOf]
        | none => rw [hp] at h; exact absurd h (by simp)
  have hfix : baseConvert [PyType.dateT] w = Except.ok w := baseConvert_fix key
  unfold dateConvert
  rw [hfix]

theorem timestampConvert_idem {v w : Value} (h : timestampConvert v = Except.ok w) :
    timestampConvert w = Except.ok w := by
  have key : typeOf w ∈ [PyType.randT, PyType.datetimeT] := by
    unfold timestampConvert at h
    cases hb : baseConvert [PyType.datetimeT] v with
    | ok x =>
      rw [hb] at h
      simp only [Except.ok.injEq] at h
      subst h
      exact baseConvert_ok_typeOf hb
    | error e =>
      rw [hb] at h
      cases v <;> simp only at h <;> try exact absurd h (by simp)
      case str s =>
        cases h1 : parseIsoDatetime s with
        | some p =>
          rw [h1] at h
          simp only [Except.ok.injEq] at h
          subst h
          simp [mkDatetime, typeOf]
        | none =>
          rw [h1] at h
          cases h2 : strptimeFracTz (s ++ "00") with
          | some p =>
            rw [h2] at h
            simp only [Except.ok.injEq] at h
            subst h
            simp [mkDatetime, typeOf]
          | none =>
            rw [h2] at h
            cases h3 : strptimeTz (s ++ "00") with
            | some p =>
              rw [h3] at h
              simp only [Except.ok.injEq] at h
              subst h
              simp [mkDatetime, typeOf]
            | none => rw [h3] at h; exact absurd h (by simp)
  have hfix : baseConvert [PyType.datetimeT] w = Except.ok w := baseConvert_fix key
  unfold timestampConvert
  rw [hfix]

/-- C6: For every concrete column type and every input on which `convert`
succeeds, `convert` is idempotent: converting the converted value succeeds
and returns it unchanged. -/
theorem convert_idempotent (ct : ColType) (v w : Value) (h : convert ct v = .ok w) :
    convert ct w = .ok w := by
  cases ct with
  | boolean => exact booleanConvert_idem h
  | integer => exact baseConvert_fix (baseConvert_ok_typeOf h)
  | smallint => exact baseConvert_fix (baseConvert_ok_typeOf h)
  | serial => exact baseConvert_fix (baseConvert_ok_typeOf h)
  | smallserial => exact baseConvert_fix (baseConvert_ok_typeOf h)
  | numeric p s => exact baseConvert_fix (baseConvert_ok_typeOf h)
  | date => exact dateConvert_idem h
  | timestamptz => exact timestampConvert_idem h
  | varchar n => exact baseConvert_fix (baseConvert_ok_typeOf h)

/-- Witness for C6 at a concrete input: converting the string `"7"` with
the integer type yields `7`, and converting that result is the identity. -/
theorem convert_idempotent_witness : convert .integer (.int 7) = .ok (.int 7) :=
  convert_idempotent .integer (.str "7") (.int 7) rfl

/-- C7: Boolean conversion maps the strings of the source tuple (those
lower-casing to "0", "f", "false") to false and every other string to
true; `convert("FALSE")`, `convert("0")`, `convert("yes")` behave as
specified, and `convert(1)` returns the int `1`, which equals Python
`True` under `==`. -/
theorem boolean_conversion_spec :
    booleanConvert (.str "FALSE") = .ok (.bool false) ∧
    booleanConvert (.str "0") = .ok (.bool false) ∧
    booleanConvert (.str "yes") = .ok (.bool true) ∧
    booleanConvert (.int 1) = .ok (.int 1) ∧
    pyEq (.int 1) (.bool true) = true ∧
    (∀ s : String, pyLower s ∈ ["0", "f", "false", "FALSE"] →
      booleanConvert (.str s) = .ok (.bool false)) ∧
    (∀ s : String, pyLower s ∉ ["0", "f", "false", "FALSE"] →
      booleanConvert (.str s) = .ok (.bool true)) := by
  refine ⟨rfl, rfl, rfl, rfl, rfl, fun s h => ?_, fun s h => ?_⟩
  · simp [booleanConvert, h]
  · simp [booleanConvert, h]

/-- Witness for C7 at concrete inputs other than the listed examples. -/
theorem boolean_conversion_witness :
    booleanConvert (.str "T") = .ok (.bool true) ∧
    booleanConvert (.str "F") = .ok (.bool false) :=
  ⟨boolean_conversion_spec.2.2.2.2.2.2 "T" (by decide),
   boolean_conversion_spec.2.2.2.2.2.1 "F" (by decide)⟩

theorem numericValidate_eq {ct : ColType} {nn : Bool} {v : Value} {lo hi n : Int}
    (hmm : minMax ct = some (lo, hi)) (hc : convert ct v = .ok (.int n))
    (hcv : columnValidate ct nn v = .ok ()) :
    numericValidate ct nn v =
      if (lo : ℚ) ≤ (n : ℚ) ∧ (n : ℚ) ≤ (hi : ℚ) then .ok ()
      else .error (.valueError ("Invalid value for type " ++ typeName ct ++
        " - must be in range of " ++ toString lo ++ " - " ++ toString hi)) := by
  unfold numericValidate
  rw [hcv, hmm, hc]
  rfl

/-- C9: validating `2 ** 31` on a 32-bit integer column fails with the
out-of-range validation error while `2 ** 31 - 1` passes; in general, for
a numeric column type and a value whose conversion yields an int, the
validation succeeds exactly when the converted value lies within
`[MIN, MAX]`. -/
theorem numeric_range_validation :
    numericValidate .integer false (.int (2 ^ 31)) = .error (.valueError
      "Invalid value for type INTEGER - must be in range of -2147483648 - 2147483647") ∧
    numericValidate .integer false (.int (2 ^ 31 - 1)) = .ok () ∧
    (∀ (ct : ColType) (nn : Bool) (v : Value) (n lo hi : Int),
      minMax ct = some (lo, hi) → convert ct v = .ok (.int n) →
      (numericValidate ct nn v = .ok () ↔ lo ≤ n ∧ n ≤ hi)) := by
  refine ⟨by rfl, by rfl, fun ct nn v n lo hi hmm hc => ?_⟩
  have hvn : v ≠ Value.none := by
    intro hv
    subst hv
    cases ct <;>
      simp only [minMax, reduceCtorEq] at hmm <;>
      simp [convert, baseConvert, tryConvertList, convertTo, typeOf] at hc
  have hvnone : (v == Value.none) = false := by
    rw [beq_eq_false_iff_ne]
    exact hvn
  have hcv : columnValidate ct nn v = .ok () := by
    simp [columnValidate, hvnone, hc]
  rw [numericValidate_eq hmm hc hcv]
  by_cases hq : lo ≤ n ∧ n ≤ hi
  · rw [if_pos (by exact_mod_cast hq)]
    simp [hq]
  · rw [if_neg (fun hqq => hq (by exact_mod_cast hqq))]
    simp [hq]

/-- Witness for C9: a small in-range value on a 16-bit column validates. -/
theorem numeric_range_validation_witness :
    numericValidate .smallint false (.int 5) = .ok () :=
  (numeric_range_validation.2.2 .smallint false (.int 5) 5 (-(2 ^ 15)) (2 ^ 15 - 1)
    rfl rfl).mpr (by decide)

theorem lookup_append (l1 l2 : Params) (k : String) :
    ((l1 ++ l2).lookup k) = ((l1.lookup k).or (l2.lookup k)) := by
  induction l1 with
  | nil => simp [List.lookup]
  | cons p rest ih =>
    obtain ⟨k0, v0⟩ := p
    by_cases h : k = k0
    · have hb : (k == k0) = true := beq_iff_eq.mpr h
      simp [List.lookup, hb, Option.or]
    · have hb : (k == k0) = false := beq_eq_false_iff_ne.mpr h
      simp [List.lookup, hb, ih]

theorem lookup_dictSet (d : Params) (k k' : String) (v : Value) :
    (dictSet d k v).lookup k' = if k' = k then some v else d.lookup k' := by
  induction d with
  | nil =>
    by_cases h : k' = k
    · have hb : (k' == k) = true := beq_iff_eq.mpr h
      simp [dictSet, List.lookup, hb, h]
    · have hb : (k' == k) = false := beq_eq_false_iff_ne.mpr h
      simp [dictSet, List.lookup, hb, h]
  | cons p rest ih =>
    obtain ⟨k0, v0⟩ := p
    by_cases h1 : k0 = k
    · subst h1
      by_cases h : k' = k0
      · have hb : (k' == k0) = true := beq_iff_eq.mpr h
        simp [dictSet, List.lookup, hb, h]
      · have hb : (k' == k0) = false := beq_eq_false_iff_ne.mpr h
        simp [dictSet, List.lookup, hb, h]
    · by_cases h : k' = k0
      · subst h
        have hb : (k' == k') = true := beq_iff_eq.mpr rfl
        simp [dictSet, h1, List.lookup, hb, Ne.symm h1]
      · have hb : (k' == k0) = false := beq_eq_false_iff_ne.mpr h
        simp [dictSet, h1, List.lookup, hb, ih]

theorem lookup_dictUpdate (d other : Params) (k : String) :
    (dictUpdate d other).lookup k = ((other.reverse.lookup k).or (d.lookup k)) := by
  induction other generalizing d with
  | nil => simp [dictUpdate]
  | cons p rest ih =>
    obtain ⟨k0, v0⟩ := p
    show (dictUpdate (dictSet d k0 v0) rest).lookup k = _
    rw [ih, lookup_dictSet, List.reverse_cons, lookup_append]
    by_cases h : k = k0
    · have hb : (k == k0) = true := beq_iff_eq.mpr h
      cases hr : rest.reverse.lookup k <;> simp [List.lookup, h, hb, hr, Option.or]
    · have hb : (k == k0) = false := beq_eq_false_iff_ne.mpr h
      cases hr : rest.reverse.lookup k <;> simp [List.lookup, h, hb, hr, Option.or]

theorem lookup_filters_merge (exprs : List WhereExpr) (d : Params) (k : String) :
    ((exprs.foldl (fun ps e => dictUpdate ps (e.2.getD [])) d).lookup k)
      = ((lastWins k exprs).or (d.lookup k)) := by
  induction exprs generalizing d with
  | nil => simp [lastWins]
  | cons e rest ih =>
    show ((rest.foldl _ (dictUpdate d (e.2.getD []))).lookup k) = _
    rw [ih, lookup_dictUpdate]
    cases hr : lastWins k rest <;>
      simp [lastWins, hr, Option.or]

/-- C8: the `and_` / `or_` combinators produce one expression whose
fragment is all input fragments joined by the operator inside one pair of
parentheses, and whose parameter map merges all input maps with later
entries winning on a name collision; the concrete two-expression example
of the specification is computed exactly. -/
theorem logical_combinators (exprs : List WhereExpr) :
    (and_ exprs).1 = "(" ++ String.intercalate " AND " (exprs.map Prod.fst) ++ ")" ∧
    (or_ exprs).1 = "(" ++ String.intercalate " OR " (exprs.map Prod.fst) ++ ")" ∧
    (∀ k, ((and_ exprs).2).lookup k = lastWins k exprs) ∧
    (∀ k, ((or_ exprs).2).lookup k = lastWins k exprs) ∧
    and_ [("expr1", some [("p1", .int 1)]), ("expr2", some [("p2", .int 2)])]
      = ("(expr1 AND expr2)", [("p1", .int 1), ("p2", .int 2)]) := by
  refine ⟨rfl, rfl, fun k => ?_, fun k => ?_, rfl⟩
  · simpa using lookup_filters_merge exprs [] k
  · simpa using lookup_filters_merge exprs [] k

/-- C1 counterexample: with tables `a` and `b` BOTH already in the running
set, the claim requires a configuration error (ambiguous join), but the
join closure succeeds, treating the first column as the anchor and
returning the second column's table. -/
theorem join_both_tables_cex :
    joinClause "JOIN" ⟨"id", ⟨"public", "a"⟩, .integer, false, false, false⟩
        ⟨"a_id", ⟨"public", "b"⟩, .integer, false, false, false⟩
        ⟨⟨"public", "a"⟩, []⟩ ⟨⟨"public", "b"⟩, []⟩
        [⟨⟨"public", "a"⟩, []⟩, ⟨⟨"public", "b"⟩, []⟩]
      = .ok ("JOIN \"public\".\"b\"\n\tON \"a\".\"id\" = \"b\".\"a_id\"",
             ⟨⟨"public", "b"⟩, []⟩) := by
  rfl

/-- C1 amended: if the first column's table is already in the running set,
the join succeeds and the second column's table is the newly joined table
(even when that table is itself already present); otherwise, if the second
column's table is in the set, the first column's table is the new table;
only when neither table is present does the join fail with a configuration
error. -/
theorem join_resolution_amended (kw : String) (first second : Col)
    (firstT secondT : Table) (joined : List Table) :
    (first.table ∈ joined.map Table.id →
      joinClause kw first second firstT secondT joined
        = .ok (kw ++ " " ++ tableStr secondT ++ "\n\tON " ++
               colStr first ++ " = " ++ colStr second, secondT)) ∧
    (first.table ∉ joined.map Table.id → second.table ∈ joined.map Table.id →
      joinClause kw first second firstT secondT joined
        = .ok (kw ++ " " ++ tableStr firstT ++ "\n\tON " ++
               colStr first ++ " = " ++ colStr second, firstT)) ∧
    (first.table ∉ joined.map Table.id → second.table ∉ joined.map Table.id →
      joinClause kw first second firstT secondT joined
        = .error (.valueError "Cannot join - unknown tables provided")) := by
  refine ⟨fun h1 => ?_, fun h1 h2 => ?_, fun h1 h2 => ?_⟩
  · simp [joinClause, h1]
  · simp [joinClause, h1, h2]
  · simp [joinClause, h1, h2]

/-- Witness for C1: joining `a.id` with `b.a_id` when only `a` is in
scope yields `b` as the newly joined table. -/
theorem join_resolution_witness :
    joinClause "JOIN" ⟨"id", ⟨"public", "a"⟩, .integer, false, false, false⟩
        ⟨"a_id", ⟨"public", "b"⟩, .integer, false, false, false⟩
        ⟨⟨"public", "a"⟩, []⟩ ⟨⟨"public", "b"⟩, []⟩ [⟨⟨"public", "a"⟩, []⟩]
      = .ok ("JOIN " ++ tableStr ⟨⟨"public", "b"⟩, []⟩ ++ "\n\tON " ++
             colStr ⟨"id", ⟨"public", "a"⟩, .integer, false, false, false⟩ ++ " = " ++
             colStr ⟨"a_id", ⟨"public", "b"⟩, .integer, false, false, false⟩,
             ⟨⟨"public", "b"⟩, []⟩) :=
  (join_resolution_amended "JOIN" ⟨"id", ⟨"public", "a"⟩, .integer, false, false, false⟩
    ⟨"a_id", ⟨"public", "b"⟩, .integer, false, false, false⟩
    ⟨⟨"public", "a"⟩, []⟩ ⟨⟨"public", "b"⟩, []⟩ [⟨⟨"public", "a"⟩, []⟩]).1 (by simp)

/-- C4 (code bug evaluation): with the order-by column's table in scope,
a descending render produces just the text `DESC` — the `ORDER BY
<column>` prefix is lost to the operator precedence of the conditional
expression — while the ascending render and the out-of-scope guard behave
as specified. -/
theorem order_by_descending_bug :
    filterRender { tables := [⟨⟨"public", "a"⟩, []⟩],
                   order_by := some ⟨"id", ⟨"public", "a"⟩, .integer, false, false, false⟩,
                   ascending := false }
      = .ok ("DESC", [⟨⟨"public", "a"⟩, []⟩], []) ∧
    containsStr "DESC" "ORDER BY" = false ∧
    filterRender { tables := [⟨⟨"public", "a"⟩, []⟩],
                   order_by := some ⟨"id", ⟨"public", "a"⟩, .integer, false, false, false⟩,
                   ascending := true }
      = .ok ("ORDER BY \"a\".\"id\" ASC", [⟨⟨"public", "a"⟩, []⟩], []) ∧
    containsStr "ORDER BY \"a\".\"id\" ASC" "ORDER BY" = true ∧
    filterRender { tables := [],
                   order_by := some ⟨"id", ⟨"public", "a"⟩, .integer, false, false, false⟩,
                   ascending := true }
      = .error (.valueError "Cannot order by unknown column") := by
  refine ⟨rfl, by decide, rfl, by decide, rfl⟩

/-- C5 (code bug evaluation): the `re.match` check of `Column.__init__`
examines only the first character, so the name `a$` — which contains a
character outside `[A-Za-z0-9_]` — is accepted; a name whose first
character is invalid, or an empty name, is rejected. -/
theorem column_name_first_char_only :
    mkColumn "a$" ⟨"public", "t"⟩ .integer
      = .ok ⟨"a$", ⟨"public", "t"⟩, .integer, false, false, false⟩ ∧
    ("a$".data.all (fun c => c.isAlphanum || c = '_')) = false ∧
    mkColumn "$a" ⟨"public", "t"⟩ .integer = .error (.valueError "Invalid column name $a") ∧
    mkColumn "" ⟨"public", "t"⟩ .integer = .error (.valueError "Invalid column name ") := by
  refine ⟨rfl, by decide, rfl, rfl⟩

theorem except_bind_error {α β : Type} (e : Err) (f : α → Except Err β) :
    (Except.error e : Except Err α) >>= f = Except.error e := rfl

theorem except_bind_ok {α β : Type} (a : α) (f : α → Except Err β) :
    (Except.ok a : Except Err α) >>= f = f a := rfl

/-- C2 counterexample: a SelectQuery with no referenced table (and no
explicit columns) does not render to empty text — evaluating
`self.table.columns` on the missing primary table raises an attribute
error. -/
theorem empty_tables_select_cex :
    selectRender {} = .error (.attributeError "NoneType object has no attribute columns") := rfl

/-- C2 amended: only DeleteQuery renders to empty text on an empty table
list (and UpdateQuery when its value map is also empty); SelectQuery
raises an attribute error, and the values branch (Insert) raises an
unpacking error. -/
theorem empty_tables_render :
    (∀ q : FilterQuery, q.tables = [] → deleteRender q = .ok ("", [], q.parameters)) ∧
    (∀ q : SelectQuery, q.tables = [] → q.columns = [] →
      selectRender q = .error (.attributeError "NoneType object has no attribute columns")) ∧
    (∀ q : ValuesQuery, q.tables = [] →
      valuesRender q = .error (.valueError "not enough values to unpack")) ∧
    (∀ q : InsertQuery, q.tables = [] →
      insertRender q = .error (.valueError "not enough values to unpack")) ∧
    (∀ q : UpdateQuery, q.tables = [] →
      (q.values = [] → updateRender q = .ok ("", [], q.parameters)) ∧
      (q.values ≠ [] → updateRender q
        = .error (.attributeError "NoneType object has no attribute columns"))) := by
  refine ⟨fun q h => ?_, fun q h hc => ?_, fun q h => ?_, fun q h => ?_,
    fun q h => ⟨fun hv => ?_, fun hv => ?_⟩⟩
  · simp [deleteRender, h]
  · simp [selectRender, h, hc, except_bind_error]
  · simp [valuesRender, h]
  · have hval : valuesRender q.toValuesQuery = .error (.valueError "not enough values to unpack") := by
      simp [valuesRender, show q.toValuesQuery.tables = [] from h]
    simp [insertRender, hval, except_bind_error]
  · simp [updateRender, hv, h]
  · simp [updateRender, hv, h]

/-- Witness for C2 at concrete queries. -/
theorem empty_tables_witness :
    deleteRender {} = .ok ("", [], []) ∧
    valuesRender {} = .error (.valueError "not enough values to unpack") ∧
    updateRender { values := [("a", Value.int 1)] }
      = .error (.attributeError "NoneType object has no attribute columns") :=
  ⟨empty_tables_render.1 {} rfl,
   empty_tables_render.2.2.1 {} rfl,
   (empty_tables_render.2.2.2.2 { values := [("a", Value.int 1)] } rfl).2 (by simp)⟩

theorem renderPieces_ok (number : Nat) (cols : List Col) (inst : Instance)
    (params : Params) (h : ∀ c ∈ cols, c.name ∈ inst.icols.map (fun x => x.name)) :
    ∃ out, renderPieces number cols inst params = .ok out := by
  induction cols generalizing params with
  | nil => exact ⟨([], params), rfl⟩
  | cons c rest ih =>
    have hc : c.name ∈ inst.icols.map (fun x => x.name) := h c (by simp)
    have hrest : ∀ x ∈ rest, x.name ∈ inst.icols.map (fun y => y.name) :=
      fun x hx => h x (by simp [hx])
    have hpiece : ∃ p, renderPiece number c inst params = .ok p := by
      unfold renderPiece
      rw [if_pos hc]
      cases instGet inst c.name <;> exact ⟨_, rfl⟩
    obtain ⟨⟨ps1, pp1⟩, hp⟩ := hpiece
    obtain ⟨⟨ps2, pp2⟩, hout⟩ := ih pp1 hrest
    exact ⟨(ps1 :: ps2, pp2), by simp [renderPieces, hp, hout, except_bind_ok]⟩

theorem renderRows_ok (inserted : Table) (number : Nat) (vals : List Instance)
    (params : Params)
    (h : ∀ inst ∈ vals, inst.itable = inserted.id ∧
         ∀ c ∈ inserted.cols, c.name ∈ inst.icols.map (fun x => x.name)) :
    ∃ out, renderRows inserted number vals params = .ok out := by
  induction vals generalizing number params with
  | nil => exact ⟨([], params), rfl⟩
  | cons inst rest ih =>
    obtain ⟨hid, hcols⟩ := h inst (by simp)
    obtain ⟨⟨ps1, pp1⟩, hp⟩ := renderPieces_ok number inserted.cols inst params hcols
    obtain ⟨⟨rs, pp2⟩, hout⟩ := ih (number + 1) pp1 (fun i hi => h i (by simp [hi]))
    refine ⟨(("\n\t(" ++ String.intercalate ", " ps1 ++ ")") :: rs, pp2), ?_⟩
    simp [renderRows, hid, hp, hout, except_bind_ok]

/-- C3 amended: every row of a well-formed insert renders without any
validation (the validation call is commented out in the source, so the
rendering succeeds regardless of the values); a RandExpr cell is spliced
raw while every other cell is bound under `<table>_<column>_<rowIndex>`,
as the concrete two-row example shows exactly. -/
theorem insert_values_binding :
    (∀ (inserted : Table) (vals : List Instance) (number : Nat) (params : Params),
      (∀ inst ∈ vals, inst.itable = inserted.id ∧
        ∀ c ∈ inserted.cols, c.name ∈ inst.icols.map (fun x => x.name)) →
      ∃ out, renderRows inserted number vals params = .ok out) ∧
    valuesRender
        ⟨[],
         [⟨⟨"public", "t"⟩,
           [⟨"n", ⟨"public", "t"⟩, .integer, false, false, false⟩,
            ⟨"r", ⟨"public", "t"⟩, .varchar Option.none, false, false, false⟩]⟩],
         [⟨⟨"public", "t"⟩,
           [⟨"n", ⟨"public", "t"⟩, .integer, false, false, false⟩,
            ⟨"r", ⟨"public", "t"⟩, .varchar Option.none, false, false, false⟩],
           [("n", .int 5), ("r", .randexpr "RANDOM()")]⟩,
          ⟨⟨"public", "t"⟩,
           [⟨"n", ⟨"public", "t"⟩, .integer, false, false, false⟩,
            ⟨"r", ⟨"public", "t"⟩, .varchar Option.none, false, false, false⟩],
           [("n", .int 7), ("r", .str "x")]⟩]⟩
      = .ok ("\nVALUES\n\t(%(t_n_0)s, RANDOM()),\n\t(%(t_n_1)s, %(t_r_1)s)",
             [("t_n_0", .int 5), ("t_n_1", .int 7), ("t_r_1", .str "x")]) :=
  ⟨fun inserted vals number params h => renderRows_ok inserted number vals params h, rfl⟩

/-- Witness for C3: a one-row insert over a one-column table renders. -/
theorem insert_values_binding_witness :
    ∃ out, renderRows ⟨⟨"public", "t"⟩, [⟨"n", ⟨"public", "t"⟩, .integer, false, false, false⟩]⟩
      0 [⟨⟨"public", "t"⟩, [⟨"n", ⟨"public", "t"⟩, .integer, false, false, false⟩],
          [("n", .int 5)]⟩] [] = .ok out :=
  insert_values_binding.1
    ⟨⟨"public", "t"⟩, [⟨"n", ⟨"public", "t"⟩, .integer, false, false, false⟩]⟩
    [⟨⟨"public", "t"⟩, [⟨"n", ⟨"public", "t"⟩, .integer, false, false, false⟩],
      [("n", .int 5)]⟩] 0 [] (by simp)

/-- C3 counterexample: an out-of-range value on an INTEGER column renders
and is bound with no validation error (validating the same value directly
fails), refuting the validate-then-bind step of the claim. -/
theorem insert_skips_validation_cex :
    valuesRender
        ⟨[], [⟨⟨"public", "t"⟩, [⟨"n", ⟨"public", "t"⟩, .integer, false, false, false⟩]⟩],
         [⟨⟨"public", "t"⟩, [⟨"n", ⟨"public", "t"⟩, .integer, false, false, false⟩],
           [("n", .int 2147483648)]⟩]⟩
      = .ok ("\nVALUES\n\t(%(t_n_0)s)", [("t_n_0", .int 2147483648)]) ∧
    colValidate ⟨"n", ⟨"public", "t"⟩, .integer, false, false, false⟩ (.int 2147483648)
      = .error (.valueError
          "Invalid value for type INTEGER - must be in range of -2147483648 - 2147483647") :=
  ⟨rfl, rfl⟩

/-- C10: a limit or offset equal to `0` is falsy and therefore silently
skipped — rendering is identical to the unset (`None`) case and emits no
LIMIT/OFFSET clause; any falsy value behaves the same way, while a truthy
negative or non-integer value makes rendering fail. -/
theorem limit_offset_zero_like_unset (ps : Params) (ts : List Table)
    (js : List (List Table → Except Err (String × Table))) (fs : List WhereExpr)
    (ob : Option Col) (asc : Bool) (lim off : Value) :
    filterRender ⟨ps, ts, js, fs, ob, asc, Value.int 0, off⟩
      = filterRender ⟨ps, ts, js, fs, ob, asc, Value.none, off⟩ ∧
    filterRender ⟨ps, ts, js, fs, ob, asc, lim, Value.int 0⟩
      = filterRender ⟨ps, ts, js, fs, ob, asc, lim, Value.none⟩ ∧
    (pyTruthy lim = false →
      filterRender ⟨ps, ts, js, fs, ob, asc, lim, off⟩
        = filterRender ⟨ps, ts, js, fs, ob, asc, Value.none, off⟩) ∧
    (pyTruthy lim = true → (pyIsInt lim = false ∨ pyIntLtZero lim = true) →
      ∃ e, filterRender ⟨ps, ts, js, fs, ob, asc, lim, off⟩ = .error e) ∧
    filterRender ⟨ps, ts, [], [], Option.none, asc, Value.int 0, Value.int 0⟩
      = .ok ("", ts, ps) := by
  refine ⟨?_, ?_, fun ht => ?_, fun ht hbad => ?_, ?_⟩
  · simp [filterRender, renderLimitClause, pyTruthy]
  · simp [filterRender, renderLimitClause, pyTruthy]
  · have hl : renderLimitClause "LIMIT" "limit" lim = Except.ok "" := by
      unfold renderLimitClause
      rw [ht]
      rfl
    have hn : renderLimitClause "LIMIT" "limit" Value.none = Except.ok "" := rfl
    simp [filterRender, hl, hn]
  · have hlim : renderLimitClause "LIMIT" "limit" lim
        = .error (.valueError "Query limit must be non-negative integer value") := by
      unfold renderLimitClause
      rw [ht]
      rcases hbad with hb | hb
      · simp [hb]
      · simp [hb]
    unfold filterRender
    cases hj : runJoins js ts "" with
    | error e => exact ⟨e, by simp [hj, except_bind_error]⟩
    | ok pr =>
      obtain ⟨jt, tbls⟩ := pr
      cases ho : renderOrderBy ob asc tbls with
      | error e => exact ⟨e, by simp [hj, ho, except_bind_error, except_bind_ok]⟩
      | ok ot =>
        exact ⟨.valueError "Query limit must be non-negative integer value",
          by simp [hj, ho, hlim, except_bind_error, except_bind_ok]⟩
  · rfl

/-- Witness for C10: a falsy non-integer limit renders like unset, and a
truthy negative limit makes rendering fail. -/
theorem limit_offset_zero_like_unset_witness :
    (filterRender ⟨[], [], [], [], Option.none, true, Value.str "", Value.none⟩
      = filterRender ⟨[], [], [], [], Option.none, true, Value.none, Value.none⟩) ∧
    (∃ e, filterRender ⟨[], [], [], [], Option.none, true, Value.int (-1), Value.none⟩
      = .error e) :=
  ⟨(limit_offset_zero_like_unset [] [] [] [] Option.none true (Value.str "") Value.none).2.2.1
     (by decide),
   (limit_offset_zero_like_unset [] [] [] [] Option.none true (Value.int (-1)) Value.none).2.2.2.1
     (by decide) (Or.inr (by decide))⟩
